import Mathlib

/-!
Shallow embedding of the Connection Registry + Message Routing + Broadcast
Fan-out core of `src/server.ts` (a Deno WebSocket fan-out bridge to a single
upstream streaming session).

Modelling conventions:
* A client WebSocket is identified by a `Nat` id (JS object reference identity).
* The registry `const clients = new Set<WebSocket>()` is an insertion-ordered
  duplicate-free `List Nat` with JS `Set` semantics: `add` is a no-op on a
  member, `delete` removes a member and is a no-op on a non-member.
* A socket's `readyState` is external transport state, supplied to the
  broadcast as a function `ready : Nat → Nat` read at iteration time.
* All handlers run single-threaded (Deno's event loop), so each handler is a
  pure function from its inputs and the current state to the next state plus
  the list of observable effects it performs.
-/

namespace GeminiLive

/-- WebSocket readyState constants (WHATWG WebSocket API). -/
def WebSocket.CONNECTING : Nat := 0

/-- readyState of a socket that is open and sendable. -/
def WebSocket.OPEN : Nat := 1

/-- readyState of a socket that is closing. -/
def WebSocket.CLOSING : Nat := 2

/-- readyState of a socket that is closed. -/
def WebSocket.CLOSED : Nat := 3

/-! ## Connection Registry: JS `Set` operations (`src/server.ts` line 23,
`clients.add` line 102, `clients.delete` lines 120 and 125) -/

/-- JS `Set.prototype.add`: inserts `i` unless already a member (membership is
reference identity; insertion order is kept, no duplicate is created). -/
def setAdd (s : List Nat) (i : Nat) : List Nat :=
  if i ∈ s then s else s ++ [i]

/-- JS `Set.prototype.delete`: removes `i` if present; silent no-op otherwise. -/
def setDelete (s : List Nat) (i : Nat) : List Nat :=
  s.erase i

/-- One registry mutation, as named by the spec (`Add`/`Remove`). -/
inductive RegOp where
  | add (i : Nat)
  | remove (i : Nat)
deriving DecidableEq

/-- Apply one `Add`/`Remove` call to the registry. -/
def applyOp (s : List Nat) (op : RegOp) : List Nat :=
  match op with
  | .add i => setAdd s i
  | .remove i => setDelete s i

/-- Run a finite sequence of `Add`/`Remove` calls from the empty registry. -/
def runOps (ops : List RegOp) : List Nat :=
  ops.foldl applyOp []

/-- Tracks, along a sequence of ops, whether connection `i` is currently live:
an `add i` makes it live, a `remove i` makes it dead, other ops are ignored.
The final value is "added and not subsequently removed". -/
def stepLive (i : Nat) (b : Bool) (op : RegOp) : Bool :=
  match op with
  | .add j => if j = i then true else b
  | .remove j => if j = i then false else b

/-- Liveness of `i` after `ops`, starting from liveness `b`. -/
def liveAfterFrom (ops : List RegOp) (i : Nat) (b : Bool) : Bool :=
  ops.foldl (stepLive i) b

/-- Connection `i` was added and not subsequently removed in `ops`. -/
def liveAfter (ops : List RegOp) (i : Nat) : Bool :=
  liveAfterFrom ops i false

theorem mem_setAdd (s : List Nat) (i j : Nat) :
    i ∈ setAdd s j ↔ i ∈ s ∨ i = j := by
  unfold setAdd
  by_cases h : j ∈ s
  · simp only [if_pos h]
    constructor
    · exact Or.inl
    · rintro (hi | rfl)
      · exact hi
      · exact h
  · simp [if_neg h, List.mem_append]

theorem nodup_setAdd {s : List Nat} (h : s.Nodup) (j : Nat) :
    (setAdd s j).Nodup := by
  unfold setAdd
  by_cases hj : j ∈ s
  · simpa [if_pos hj] using h
  · simp [if_neg hj, List.nodup_append, h, hj]

theorem nodup_setDelete {s : List Nat} (h : s.Nodup) (j : Nat) :
    (setDelete s j).Nodup :=
  h.erase j

theorem mem_setDelete {s : List Nat} (h : s.Nodup) (i j : Nat) :
    i ∈ setDelete s j ↔ i ≠ j ∧ i ∈ s := by
  unfold setDelete
  exact h.mem_erase_iff

theorem nodup_applyOp {s : List Nat} (h : s.Nodup) (op : RegOp) :
    (applyOp s op).Nodup := by
  cases op with
  | add i => exact nodup_setAdd h i
  | remove i => exact nodup_setDelete h i

theorem decide_mem_applyOp {s : List Nat} (h : s.Nodup) (i : Nat) (op : RegOp) :
    decide (i ∈ applyOp s op) = stepLive i (decide (i ∈ s)) op := by
  cases op with
  | add j =>
      simp only [applyOp, stepLive]
      by_cases hji : j = i
      · subst hji
        simp [mem_setAdd]
      · have hij : ¬ i = j := fun h => hji h.symm
        simp [mem_setAdd, hji, hij]
  | remove j =>
      simp only [applyOp, stepLive]
      by_cases hji : j = i
      · subst hji
        simp [mem_setDelete h]
      · have hij : ¬ i = j := fun h => hji h.symm
        simp [mem_setDelete h, hji, hij]

theorem nodup_foldl_applyOp :
    ∀ (ops : List RegOp) (s : List Nat), s.Nodup → (ops.foldl applyOp s).Nodup := by
  intro ops
  induction ops with
  | nil => intro s hs; simpa using hs
  | cons op rest ih =>
      intro s hs
      simpa [List.foldl_cons] using ih (applyOp s op) (nodup_applyOp hs op)

theorem mem_foldl_applyOp :
    ∀ (ops : List RegOp) (s : List Nat), s.Nodup → ∀ i : Nat,
      (i ∈ ops.foldl applyOp s ↔ liveAfterFrom ops i (decide (i ∈ s)) = true) := by
  intro ops
  induction ops with
  | nil =>
      intro s _ i
      simp [liveAfterFrom]
  | cons op rest ih =>
      intro s hs i
      have hstep := decide_mem_applyOp hs i op
      have := ih (applyOp s op) (nodup_applyOp hs op) i
      simpa [List.foldl_cons, liveAfterFrom, hstep] using this

theorem mem_runOps (ops : List RegOp) (i : Nat) :
    i ∈ runOps ops ↔ liveAfter ops i = true := by
  have h := mem_foldl_applyOp ops [] (by simp) i
  simpa [runOps, liveAfter] using h

/-! ## Connection lifecycle events (`src/server.ts` lines 98-126): the upgrade
handler calls `clients.add(socket)`; `socket.onclose` and `socket.onerror`
both call `clients.delete(socket)`. -/

/-- Transport-reported lifecycle events for client socket `i`. -/
inductive SocketEvent where
  | connect (i : Nat)
  | close (i : Nat)
  | error (i : Nat)
deriving DecidableEq

/-- Registry mutation performed by each lifecycle handler in the source:
`connect` runs `clients.add(socket)`, `close` and `error` both run
`clients.delete(socket)`. -/
def applySocketEvent (s : List Nat) (e : SocketEvent) : List Nat :=
  match e with
  | .connect i => setAdd s i
  | .close i => setDelete s i
  | .error i => setDelete s i

/-- Run a trace of lifecycle events from the empty registry. -/
def runSocketEvents (es : List SocketEvent) : List Nat :=
  es.foldl applySocketEvent []

/-- An event is terminal for connection `i` when it is a close or error
reported for `i`. -/
def isTerminalFor (i : Nat) (e : SocketEvent) : Bool :=
  match e with
  | .connect _ => false
  | .close j => j = i
  | .error j => j = i

/-- The registry mutation each lifecycle event performs, as an `Add`/`Remove`. -/
def toRegOp : SocketEvent → RegOp
  | .connect i => .add i
  | .close i => .remove i
  | .error i => .remove i

/-- Connection `i` has a connect event in `es` with no later close/error. -/
def liveSocket (es : List SocketEvent) (i : Nat) : Bool :=
  liveAfter (es.map toRegOp) i

theorem applySocketEvent_eq_applyOp (s : List Nat) (e : SocketEvent) :
    applySocketEvent s e = applyOp s (toRegOp e) := by
  cases e <;> rfl

theorem mem_runSocketEvents (es : List SocketEvent) (i : Nat) :
    i ∈ runSocketEvents es ↔ liveSocket es i = true := by
  have hfold : ∀ (l : List SocketEvent) (s : List Nat),
      l.foldl applySocketEvent s = (l.map toRegOp).foldl applyOp s := by
    intro l
    induction l with
    | nil => intro s; rfl
    | cons e rest ih =>
        intro s
        simp [List.foldl_cons, applySocketEvent_eq_applyOp, ih]
  rw [runSocketEvents, hfold, liveSocket]
  exact mem_runOps (es.map toRegOp) i

/-! ## Broadcast Dispatcher (`src/server.ts` lines 65-71): wrap the upstream
inline audio payload in the fixed envelope, `JSON.stringify` it, and send it
to every registered client whose `readyState` is `OPEN`.  `WebSocket.send` on
an OPEN socket is fire-and-forget and does not raise synchronously (the
transport reports failures asynchronously via the socket's error event), so
per-connection transport failure is modelled as a per-connection outcome on
the attempted send, not as control flow aborting the loop. -/

/-- The fixed client-facing envelope record. -/
structure BroadcastEnvelope where
  type : String
  data : String
deriving DecidableEq

/-- Envelope construction from the source: the object literal
`(type: audioStream, data: audioData)` built in the broadcast loop. -/
def mkEnvelope (audioData : String) : BroadcastEnvelope :=
  { type := "audioStream", data := audioData }

/-- Hexadecimal digit for one nibble, as produced by JSON escaping. -/
def hexDigit (n : Nat) : Char :=
  if n < 10 then Char.ofNat (48 + n) else Char.ofNat (87 + n)

/-- JSON string escaping of one character, per `JSON.stringify`. -/
def jsonEscapeChar (c : Char) : String :=
  if c = '"' then "\\\""
  else if c = '\\' then "\\\\"
  else if c = '\x08' then "\\b"
  else if c = '\x0c' then "\\f"
  else if c = '\n' then "\\n"
  else if c = '\r' then "\\r"
  else if c = '\t' then "\\t"
  else if c.toNat < 32 then
    "\\u00" ++ String.mk [hexDigit (c.toNat / 16), hexDigit (c.toNat % 16)]
  else String.singleton c

/-- JSON serialization of a string value, per `JSON.stringify`. -/
def jsonQuote (s : String) : String :=
  "\"" ++ String.join (s.data.map jsonEscapeChar) ++ "\""

/-- JSON serialization of the envelope record, per
`JSON.stringify((type: audioStream, data: audioData))`: two string-valued
fields in declaration order. -/
def stringifyEnvelope (e : BroadcastEnvelope) : String :=
  "\x7b" ++ jsonQuote "type" ++ ":" ++ jsonQuote e.type ++ ","
    ++ jsonQuote "data" ++ ":" ++ jsonQuote e.data ++ "\x7d"

/-- The serialized bytes the broadcast loop sends for payload `audioData`. -/
def serializeEnvelope (audioData : String) : String :=
  stringifyEnvelope (mkEnvelope audioData)

/-- Server state shared by all handlers: the connection registry. -/
structure ServerState where
  clients : List Nat
deriving DecidableEq

/-- The broadcast loop `clients.forEach(...)`: iterate over the registry
snapshot; for each client whose `readyState` is `OPEN`, send the serialized
envelope; otherwise skip it.  Returns the (unchanged) server state and the
ordered list of performed sends `(client id, serialized bytes)`. -/
def broadcastFold (ready : Nat → Nat) (audioData : String) (st : ServerState) :
    ServerState × List (Nat × String) :=
  st.clients.foldl
    (fun acc c =>
      if ready c = WebSocket.OPEN then (acc.1, acc.2 ++ [(c, serializeEnvelope audioData)])
      else acc)
    (st, [])

/-- Transport outcome of the attempted sends: `sendOk c = true` when the
transport delivers to client `c`, `false` when that client's send fails at
the transport layer. -/
def deliveredSends (sendOk : Nat → Bool) (sends : List (Nat × String)) :
    List (Nat × String) :=
  sends.filter fun p => sendOk p.1

theorem broadcastFold_eq (ready : Nat → Nat) (audioData : String) (st : ServerState) :
    broadcastFold ready audioData st =
      (st, (st.clients.filter fun c => ready c = WebSocket.OPEN).map
        fun c => (c, serializeEnvelope audioData)) := by
  unfold broadcastFold
  suffices h : ∀ (l : List Nat) (acc : List (Nat × String)),
      l.foldl
        (fun acc c =>
          if ready c = WebSocket.OPEN then (acc.1, acc.2 ++ [(c, serializeEnvelope audioData)])
          else acc)
        (st, acc) =
      (st, acc ++ (l.filter fun c => ready c = WebSocket.OPEN).map
        fun c => (c, serializeEnvelope audioData)) by
    simpa using h st.clients []
  intro l
  induction l with
  | nil => intro acc; simp
  | cons c rest ih =>
      intro acc
      by_cases hc : ready c = WebSocket.OPEN
      · simp [List.foldl_cons, hc, ih]
      · simp [List.foldl_cons, hc, ih]

theorem mem_broadcastFold (ready : Nat → Nat) (audioData : String)
    (st : ServerState) (c : Nat) (m : String) :
    (c, m) ∈ (broadcastFold ready audioData st).2 ↔
      c ∈ st.clients ∧ ready c = WebSocket.OPEN ∧ m = serializeEnvelope audioData := by
  rw [broadcastFold_eq]
  simp only [List.mem_map, List.mem_filter]
  constructor
  · rintro ⟨x, ⟨hx, hopen⟩, heq⟩
    obtain ⟨rfl, rfl⟩ := Prod.mk.injEq .. ▸ heq
    exact ⟨hx, by simpa using hopen, rfl⟩
  · rintro ⟨hc, hopen, rfl⟩
    exact ⟨c, ⟨hc, by simpa using hopen⟩, rfl⟩

/-! ## Upstream server message model (`@google/genai` types as used by
`src/server.ts` lines 55-73): every nested field is optional, and the source
probes the chain `serverContent && modelTurn && parts && parts.length > 0 &&
parts[0].inlineData && parts[0].inlineData.data` with JS truthiness (an
absent field is `undefined`, and an empty string is falsy). -/

/-- Media blob: `types.Blob` has optional `data` and `mimeType` strings. -/
structure Blob where
  data : Option String
  mimeType : Option String
deriving DecidableEq

/-- One content part; only its optional `inlineData` field is probed. -/
structure Part where
  inlineData : Option Blob
deriving DecidableEq

/-- `types.Content`: an optional list of parts. -/
structure Content where
  parts : Option (List Part)
deriving DecidableEq

/-- `types.LiveServerContent`: an optional model turn. -/
structure LiveServerContent where
  modelTurn : Option Content
deriving DecidableEq

/-- `types.LiveServerMessage`: an optional server content. -/
structure LiveServerMessage where
  serverContent : Option LiveServerContent
deriving DecidableEq

/-- The guard chain of the upstream `onmessage` callback: yields the inline
audio payload of the FIRST content part when every probed field is present
and truthy (`parts.length > 0`; an empty `data` string is falsy in JS, so it
fails the guard), and `none` otherwise. -/
def extractInlineAudio (message : LiveServerMessage) : Option String :=
  match message.serverContent with
  | none => none
  | some sc =>
    match sc.modelTurn with
    | none => none
    | some turn =>
      match turn.parts with
      | none => none
      | some [] => none
      | some (p0 :: _) =>
        match p0.inlineData with
        | none => none
        | some blob =>
          match blob.data with
          | none => none
          | some d => if d = "" then none else some d

/-- The upstream session `onmessage` callback: when the guard chain passes it
broadcasts the extracted payload to all registered clients (the broadcast
loop of lines 67-71); otherwise it only logs, leaving the state unchanged and
performing no sends. -/
def onUpstreamMessage (ready : Nat → Nat) (message : LiveServerMessage)
    (st : ServerState) : ServerState × List (Nat × String) :=
  match extractInlineAudio message with
  | some audioData => broadcastFold ready audioData st
  | none => (st, [])

/-! ## Message Router (`src/server.ts` lines 104-116): `socket.onmessage`
decodes the raw frame with `JSON.parse`, dispatches on `message.type`, and a
single `try/catch` absorbs both decode failures and any synchronous
exception raised by the upstream send calls, logging the error.  `JSON.parse`
is a platform primitive; its outcome is modelled as an `Except` input: a
decoded structured record, or the decode exception's description. -/

/-- Decoded client message: `type`, `text` and `audioData` are all optional
(`undefined` when absent from the JSON object). -/
structure ClientMessage where
  type : Option String
  text : Option String
  audioData : Option String
deriving DecidableEq

/-- `createBlob` (`src/server.ts` lines 14-16): tags one audio chunk with the
fixed PCM/16kHz mime descriptor.  The `audioData` argument is `Option`-typed
because the caller passes `message.audioData`, which may be absent. -/
def createBlob (audioData : Option String) : Blob :=
  { data := audioData, mimeType := some "audio/pcm;rate=16000" }

/-- Upstream session calls the router can perform:
`session.sendClientContent((turns: message.text, turnComplete: true))` and
`session.sendRealtimeInput((media: createBlob(message.audioData)))`. -/
inductive UpstreamCall where
  | sendClientContent (turns : Option String) (turnComplete : Bool)
  | sendRealtimeInput (media : Blob)
deriving DecidableEq

/-- The dispatch on `message.type`: the list of upstream calls the handler
makes for one decoded message. -/
def routeClientMessage (message : ClientMessage) : List UpstreamCall :=
  if message.type = some "contentUpdateText" then
    [.sendClientContent message.text true]
  else if message.type = some "realtimeInput" then
    [.sendRealtimeInput (createBlob message.audioData)]
  else []

/-- Observable outcome of one `socket.onmessage` run: the routed calls
completed normally, or an exception was caught and logged by the `catch`. -/
inductive HandlerOutcome where
  | routed (calls : List UpstreamCall)
  | loggedError (err : String)
deriving DecidableEq

/-- Attempt the routed calls in order; `throws` gives the synchronous
exception (if any) each upstream call raises.  Returns the calls attempted
(a throwing call was still attempted) and the first exception raised. -/
def attemptCalls (throws : UpstreamCall → Option String) :
    List UpstreamCall → List UpstreamCall × Option String
  | [] => ([], none)
  | c :: rest =>
    match throws c with
    | some e => ([c], some e)
    | none =>
      let r := attemptCalls throws rest
      (c :: r.1, r.2)

/-- `socket.onmessage` on one inbound frame, given the `JSON.parse` outcome:
the `try` body decodes and routes; the `catch` absorbs a decode exception or
a synchronous upstream-send exception and logs it.  Returns the attempted
upstream calls and the handler outcome; a total function — no exception
escapes the handler. -/
def socketOnMessage (throws : UpstreamCall → Option String)
    (parsed : Except String ClientMessage) : List UpstreamCall × HandlerOutcome :=
  match parsed with
  | .error e => ([], .loggedError e)
  | .ok message =>
    let r := attemptCalls throws (routeClientMessage message)
    match r.2 with
    | some e => (r.1, .loggedError e)
    | none => (r.1, .routed r.1)

/-- `socket.onmessage` as a state transformer: the handler body never touches
the `clients` registry, so the server state passes through unchanged. -/
def handleSocketMessage (throws : UpstreamCall → Option String)
    (parsed : Except String ClientMessage) (st : ServerState) :
    ServerState × (List UpstreamCall × HandlerOutcome) :=
  (st, socketOnMessage throws parsed)

/-! ## Claim theorems -/

/-- C3: for every finite sequence of `Add`/`Remove` calls from the empty
registry, the live set is exactly the set of connections added and not
subsequently removed; the registry never holds duplicates (so adding a
member does not duplicate it — indeed it leaves the set unchanged), and
removing an absent connection is a silent no-op. -/
theorem registry_sequence_correct (ops : List RegOp) (i : Nat) (s : List Nat) :
    (i ∈ runOps ops ↔ liveAfter ops i = true)
    ∧ (runOps ops).Nodup
    ∧ (i ∈ s → setAdd s i = s)
    ∧ (i ∉ s → setDelete s i = s) := by
  refine ⟨mem_runOps ops i, nodup_foldl_applyOp ops [] (by simp), ?_, ?_⟩
  · intro h
    simp [setAdd, h]
  · intro h
    simp [setDelete, List.erase_of_not_mem h]

/-- Witness for C3 at a concrete op sequence: 2 is added twice and stays
live, 5 is added then removed, removing absent 7 and re-adding present 2
leave the set unchanged. -/
theorem registry_sequence_correct_witness :
    (2 ∈ runOps [.add 2, .add 2, .add 5, .remove 7, .remove 5]
      ↔ liveAfter [.add 2, .add 2, .add 5, .remove 7, .remove 5] 2 = true)
    ∧ (runOps [.add 2, .add 2, .add 5, .remove 7, .remove 5]).Nodup
    ∧ setAdd [2, 5] 2 = [2, 5]
    ∧ setDelete [2, 5] 7 = [2, 5] := by
  have h1 := registry_sequence_correct
    [.add 2, .add 2, .add 5, .remove 7, .remove 5] 2 [2, 5]
  have h2 := registry_sequence_correct
    [.add 2, .add 2, .add 5, .remove 7, .remove 5] 7 [2, 5]
  exact ⟨h1.1, h1.2.1, h1.2.2.1 (by decide), h2.2.2.2 (by decide)⟩

/-- C4: both terminal transport events (`onclose` and `onerror`) remove the
connection from the registry — immediately after processing a terminal event
for `i`, `i` is not a member — and along any lifecycle trace, `i` is a
member exactly when it has a connect event not followed by a close/error
(no dangling entries). -/
theorem terminal_event_removes (es : List SocketEvent) (e : SocketEvent)
    (i : Nat) (s : List Nat) (hs : s.Nodup) :
    (isTerminalFor i e = true → i ∉ applySocketEvent s e)
    ∧ (i ∈ runSocketEvents es ↔ liveSocket es i = true) := by
  refine ⟨?_, mem_runSocketEvents es i⟩
  intro ht
  cases e with
  | connect j => simp [isTerminalFor] at ht
  | close j =>
      have hji : j = i := by simpa [isTerminalFor] using ht
      intro hmem
      have hmem' : i ∈ setDelete s j := hmem
      exact ((mem_setDelete hs i j).1 hmem').1 hji.symm
  | error j =>
      have hji : j = i := by simpa [isTerminalFor] using ht
      intro hmem
      have hmem' : i ∈ setDelete s j := hmem
      exact ((mem_setDelete hs i j).1 hmem').1 hji.symm

/-- Witness for C4: closing socket 1 removes it from registry `[1, 2]`, and
after the trace connect 1, connect 2, error 1, membership of 1 matches its
liveness (it is out). -/
theorem terminal_event_removes_witness :
    (1 ∉ applySocketEvent [1, 2] (.close 1))
    ∧ (1 ∈ runSocketEvents [.connect 1, .connect 2, .error 1]
        ↔ liveSocket [.connect 1, .connect 2, .error 1] 1 = true) := by
  have h := terminal_event_removes
    [.connect 1, .connect 2, .error 1] (.close 1) 1 [1, 2] (by decide)
  exact ⟨h.1 (by decide), h.2⟩

/-- C1: failure isolation of the broadcast loop.  A transport send failure of
one registered connection `f` does not prevent delivery to any other live,
sendable connection `c`: `c` still receives the serialized payload.  (On an
OPEN socket, `WebSocket.send` does not raise synchronously — failures are
reported via the socket's error event — so the `forEach` iteration is never
aborted and each attempted send succeeds or fails independently.) -/
theorem broadcast_failure_isolation (ready : Nat → Nat) (sendOk : Nat → Bool)
    (audioData : String) (st : ServerState) (f c : Nat)
    (hf : f ∈ st.clients) (hfail : sendOk f = false)
    (hc : c ∈ st.clients) (hne : c ≠ f)
    (hopen : ready c = WebSocket.OPEN) (hok : sendOk c = true) :
    (c, serializeEnvelope audioData) ∈
      deliveredSends sendOk (broadcastFold ready audioData st).2 := by
  have hmem : (c, serializeEnvelope audioData) ∈ (broadcastFold ready audioData st).2 :=
    (mem_broadcastFold ready audioData st c (serializeEnvelope audioData)).2
      ⟨hc, hopen, rfl⟩
  unfold deliveredSends
  exact List.mem_filter.2 ⟨hmem, by simpa using hok⟩

/-- Witness for C1: among registered clients 1 and 2, both OPEN, the
transport fails client 1's send; client 2 still gets the payload. -/
theorem broadcast_failure_isolation_witness :
    (2, serializeEnvelope "aGk=") ∈
      deliveredSends (fun n => n != 1)
        (broadcastFold (fun _ => WebSocket.OPEN) "aGk=" ⟨[1, 2]⟩).2 :=
  broadcast_failure_isolation (fun _ => WebSocket.OPEN) (fun n => n != 1)
    "aGk=" ⟨[1, 2]⟩ 1 2 (by decide) (by decide) (by decide) (by decide) rfl rfl

/-- C2: the broadcast wraps the payload in the fixed envelope
and serializes it; every connection that is in the registry snapshot and
OPEN when the iteration begins receives exactly these serialized bytes, and
every performed send carries those identical bytes and targets a connection
that was in the snapshot (so a connection added after the broadcast began
receives nothing from it). -/
theorem broadcast_identical_envelope (ready : Nat → Nat) (audioData : String)
    (st : ServerState) (c : Nat) (m : String) :
    mkEnvelope audioData = { type := "audioStream", data := audioData }
    ∧ serializeEnvelope audioData = stringifyEnvelope (mkEnvelope audioData)
    ∧ (c ∈ st.clients → ready c = WebSocket.OPEN →
        (c, serializeEnvelope audioData) ∈ (broadcastFold ready audioData st).2)
    ∧ ((c, m) ∈ (broadcastFold ready audioData st).2 →
        m = serializeEnvelope audioData ∧ c ∈ st.clients ∧ ready c = WebSocket.OPEN) := by
  refine ⟨rfl, rfl, ?_, ?_⟩
  · intro hc hopen
    exact (mem_broadcastFold ready audioData st c (serializeEnvelope audioData)).2
      ⟨hc, hopen, rfl⟩
  · intro hm
    have h := (mem_broadcastFold ready audioData st c m).1 hm
    exact ⟨h.2.2, h.1, h.2.1⟩

/-- Witness for C2: with registry `[1, 2]` and both sockets OPEN, client 2
receives the serialized envelope for payload `aGk=`, and that send indeed
carries the serialized envelope to a snapshot member. -/
theorem broadcast_identical_envelope_witness :
    mkEnvelope "aGk=" = { type := "audioStream", data := "aGk=" }
    ∧ (2, serializeEnvelope "aGk=") ∈
        (broadcastFold (fun _ => WebSocket.OPEN) "aGk=" ⟨[1, 2]⟩).2
    ∧ (serializeEnvelope "aGk=" = serializeEnvelope "aGk="
        ∧ 2 ∈ ([1, 2] : List Nat)
        ∧ (fun _ => WebSocket.OPEN) 2 = WebSocket.OPEN) := by
  have h := broadcast_identical_envelope (fun _ => WebSocket.OPEN) "aGk="
    ⟨[1, 2]⟩ 2 (serializeEnvelope "aGk=")
  exact ⟨h.1, h.2.2.1 (by decide) rfl, h.2.2.2 (h.2.2.1 (by decide) rfl)⟩

/-- C8: the broadcast never mutates the registry — the server state after
the loop is the state before it — and a connection whose readyState is not
OPEN is skipped: no send to it appears among the performed sends. -/
theorem broadcast_skips_not_open (ready : Nat → Nat) (audioData : String)
    (st : ServerState) (c : Nat) (m : String)
    (h : ¬ ready c = WebSocket.OPEN) :
    (broadcastFold ready audioData st).1 = st
    ∧ (c, m) ∉ (broadcastFold ready audioData st).2 := by
  constructor
  · rw [broadcastFold_eq]
  · intro hm
    exact h ((mem_broadcastFold ready audioData st c m).1 hm).2.1

/-- Witness for C8: with registry `[1, 3]` where socket 3 is CLOSED, the
broadcast leaves the state unchanged and performs no send to 3. -/
theorem broadcast_skips_not_open_witness :
    (broadcastFold (fun n => if n = 3 then WebSocket.CLOSED else WebSocket.OPEN)
        "aGk=" ⟨[1, 3]⟩).1 = ⟨[1, 3]⟩
    ∧ (3, serializeEnvelope "aGk=") ∉
        (broadcastFold (fun n => if n = 3 then WebSocket.CLOSED else WebSocket.OPEN)
          "aGk=" ⟨[1, 3]⟩).2 :=
  broadcast_skips_not_open
    (fun n => if n = 3 then WebSocket.CLOSED else WebSocket.OPEN)
    "aGk=" ⟨[1, 3]⟩ 3 (serializeEnvelope "aGk=") (by decide)

/-- C5: routing dispatches on the decoded message's `type`:
`contentUpdateText` yields exactly one `sendClientContent` call carrying the
message's `text` marked turn-complete and no realtime call; `realtimeInput`
yields exactly one `sendRealtimeInput` call carrying the message's
`audioData` tagged with the fixed PCM/16kHz mime descriptor; any other or
missing `type` yields zero upstream calls. -/
theorem route_dispatch (message : ClientMessage) :
    (message.type = some "contentUpdateText" →
      routeClientMessage message = [.sendClientContent message.text true])
    ∧ (message.type = some "realtimeInput" →
      routeClientMessage message = [.sendRealtimeInput (createBlob message.audioData)])
    ∧ (message.type ≠ some "contentUpdateText" → message.type ≠ some "realtimeInput" →
      routeClientMessage message = [])
    ∧ (createBlob message.audioData).mimeType = some "audio/pcm;rate=16000" := by
  refine ⟨?_, ?_, ?_, rfl⟩
  · intro h
    simp [routeClientMessage, h]
  · intro h
    simp [routeClientMessage, h]
  · intro h1 h2
    simp [routeClientMessage, h1, h2]

/-- Witness for C5 on three concrete decoded messages: a text update, a
realtime audio chunk, and an unrecognized type. -/
theorem route_dispatch_witness :
    routeClientMessage ⟨some "contentUpdateText", some "hello", none⟩ =
      [.sendClientContent (some "hello") true]
    ∧ routeClientMessage ⟨some "realtimeInput", none, some "QUJD"⟩ =
      [.sendRealtimeInput (createBlob (some "QUJD"))]
    ∧ routeClientMessage ⟨some "bogus", none, none⟩ = []
    ∧ (createBlob (some "QUJD")).mimeType = some "audio/pcm;rate=16000" := by
  refine ⟨(route_dispatch ⟨some "contentUpdateText", some "hello", none⟩).1 rfl,
    (route_dispatch ⟨some "realtimeInput", none, some "QUJD"⟩).2.1 rfl,
    (route_dispatch ⟨some "bogus", none, none⟩).2.2.1 (by decide) (by decide),
    (route_dispatch ⟨some "realtimeInput", none, some "QUJD"⟩).2.2.2⟩

/-- C9: a `contentUpdateText` message whose `text` field is absent is still
forwarded — the handler calls `sendClientContent` with the absent
(`undefined`) value as the turn content, without validating the field. -/
theorem route_text_absent_forwarded (message : ClientMessage)
    (htype : message.type = some "contentUpdateText") (htext : message.text = none) :
    routeClientMessage message = [.sendClientContent none true] := by
  simp [routeClientMessage, htype, htext]

/-- Witness for C9 at the concrete message with type `contentUpdateText`
and no `text` field. -/
theorem route_text_absent_forwarded_witness :
    routeClientMessage ⟨some "contentUpdateText", none, none⟩ =
      [.sendClientContent none true] :=
  route_text_absent_forwarded ⟨some "contentUpdateText", none, none⟩ rfl rfl

/-- C7: on a raw frame that fails to decode, the handler performs zero
upstream calls, logs the decode error via the `catch` (no propagating
failure — the handler returns normally), leaves the registry unchanged, and
the sending connection remains a member. -/
theorem route_unparseable_noop (throws : UpstreamCall → Option String)
    (e : String) (st : ServerState) (i : Nat) (hi : i ∈ st.clients) :
    (handleSocketMessage throws (.error e) st).1 = st
    ∧ (handleSocketMessage throws (.error e) st).2.1 = []
    ∧ (handleSocketMessage throws (.error e) st).2.2 = .loggedError e
    ∧ i ∈ (handleSocketMessage throws (.error e) st).1.clients :=
  ⟨rfl, rfl, rfl, hi⟩

/-- Witness for C7: a `SyntaxError` decode outcome with client 7 registered. -/
theorem route_unparseable_noop_witness :
    (handleSocketMessage (fun _ => none) (.error "SyntaxError") ⟨[7]⟩).1 = ⟨[7]⟩
    ∧ (handleSocketMessage (fun _ => none) (.error "SyntaxError") ⟨[7]⟩).2.1 = []
    ∧ (handleSocketMessage (fun _ => none) (.error "SyntaxError") ⟨[7]⟩).2.2 =
        .loggedError "SyntaxError"
    ∧ 7 ∈ (handleSocketMessage (fun _ => none) (.error "SyntaxError") ⟨[7]⟩).1.clients :=
  route_unparseable_noop (fun _ => none) "SyntaxError" ⟨[7]⟩ 7 (by decide)

/-- C10: the handler's `try/catch` also absorbs a synchronous exception
raised by the routed upstream send call itself: the handler returns normally
with the exception logged, the registry unchanged, and the sending
connection still a member (the embedding of the handler is a total
function, so no input makes it propagate an exception). -/
theorem handler_absorbs_upstream_throw (throws : UpstreamCall → Option String)
    (parsed : Except String ClientMessage) (st : ServerState) (i : Nat)
    (message : ClientMessage) (call : UpstreamCall) (e : String)
    (hi : i ∈ st.clients)
    (hp : parsed = .ok message)
    (hr : routeClientMessage message = [call])
    (hthrow : throws call = some e) :
    (handleSocketMessage throws parsed st).1 = st
    ∧ i ∈ (handleSocketMessage throws parsed st).1.clients
    ∧ (handleSocketMessage throws parsed st).2.2 = .loggedError e
    ∧ (handleSocketMessage throws parsed st).2.1 = [call] := by
  subst hp
  refine ⟨rfl, hi, ?_, ?_⟩
  · simp [handleSocketMessage, socketOnMessage, hr, attemptCalls, hthrow]
  · simp [handleSocketMessage, socketOnMessage, hr, attemptCalls, hthrow]

/-- Witness for C10: the upstream session throws on the text-turn call; the
handler logs it and client 7 stays registered with the state unchanged. -/
theorem handler_absorbs_upstream_throw_witness :
    (handleSocketMessage (fun _ => some "Upstream closed")
        (.ok ⟨some "contentUpdateText", some "hi", none⟩) ⟨[7]⟩).1 = ⟨[7]⟩
    ∧ 7 ∈ (handleSocketMessage (fun _ => some "Upstream closed")
        (.ok ⟨some "contentUpdateText", some "hi", none⟩) ⟨[7]⟩).1.clients
    ∧ (handleSocketMessage (fun _ => some "Upstream closed")
        (.ok ⟨some "contentUpdateText", some "hi", none⟩) ⟨[7]⟩).2.2 =
        .loggedError "Upstream closed"
    ∧ (handleSocketMessage (fun _ => some "Upstream closed")
        (.ok ⟨some "contentUpdateText", some "hi", none⟩) ⟨[7]⟩).2.1 =
        [.sendClientContent (some "hi") true] :=
  handler_absorbs_upstream_throw (fun _ => some "Upstream closed")
    (.ok ⟨some "contentUpdateText", some "hi", none⟩) ⟨[7]⟩ 7
    ⟨some "contentUpdateText", some "hi", none⟩
    (.sendClientContent (some "hi") true) "Upstream closed"
    (by decide) rfl (by decide) rfl

/-- C6: the upstream `onmessage` callback never mutates the registry; when
the full guard chain is present (server content, model turn, nonempty parts,
inline data on the first part, nonempty data), the first part's inline
payload is broadcast to every OPEN registered client; when any probed field
is absent (no content, no turn, no parts, empty parts, no inline data, no
data) the callback is a normal no-op performing no sends. -/
theorem upstream_onmessage_extraction (ready : Nat → Nat)
    (message : LiveServerMessage) (st : ServerState) (c : Nat)
    (hc : c ∈ st.clients) (hopen : ready c = WebSocket.OPEN) :
    ((onUpstreamMessage ready message st).1 = st)
    ∧ (∀ sc turn p0 rest blob d,
        message.serverContent = some sc → sc.modelTurn = some turn →
        turn.parts = some (p0 :: rest) → p0.inlineData = some blob →
        blob.data = some d → d ≠ "" →
        (c, serializeEnvelope d) ∈ (onUpstreamMessage ready message st).2)
    ∧ (message.serverContent = none → (onUpstreamMessage ready message st).2 = [])
    ∧ (∀ sc, message.serverContent = some sc → sc.modelTurn = none →
        (onUpstreamMessage ready message st).2 = [])
    ∧ (∀ sc turn, message.serverContent = some sc → sc.modelTurn = some turn →
        turn.parts = none → (onUpstreamMessage ready message st).2 = [])
    ∧ (∀ sc turn, message.serverContent = some sc → sc.modelTurn = some turn →
        turn.parts = some [] → (onUpstreamMessage ready message st).2 = [])
    ∧ (∀ sc turn p0 rest, message.serverContent = some sc → sc.modelTurn = some turn →
        turn.parts = some (p0 :: rest) → p0.inlineData = none →
        (onUpstreamMessage ready message st).2 = [])
    ∧ (∀ sc turn p0 rest blob, message.serverContent = some sc →
        sc.modelTurn = some turn → turn.parts = some (p0 :: rest) →
        p0.inlineData = some blob → blob.data = none →
        (onUpstreamMessage ready message st).2 = []) := by
  refine ⟨?_, ?_, ?_, ?_, ?_, ?_, ?_, ?_⟩
  · unfold onUpstreamMessage
    cases hx : extractInlineAudio message with
    | none => rfl
    | some d => simp [broadcastFold_eq]
  · intro sc turn p0 rest blob d h1 h2 h3 h4 h5 h6
    have hx : extractInlineAudio message = some d := by
      simp [extractInlineAudio, h1, h2, h3, h4, h5, h6]
    have heq : onUpstreamMessage ready message st = broadcastFold ready d st := by
      simp [onUpstreamMessage, hx]
    rw [heq]
    exact (mem_broadcastFold ready d st c (serializeEnvelope d)).2 ⟨hc, hopen, rfl⟩
  · intro h1
    simp [onUpstreamMessage, extractInlineAudio, h1]
  · intro sc h1 h2
    simp [onUpstreamMessage, extractInlineAudio, h1, h2]
  · intro sc turn h1 h2 h3
    simp [onUpstreamMessage, extractInlineAudio, h1, h2, h3]
  · intro sc turn h1 h2 h3
    simp [onUpstreamMessage, extractInlineAudio, h1, h2, h3]
  · intro sc turn p0 rest h1 h2 h3 h4
    simp [onUpstreamMessage, extractInlineAudio, h1, h2, h3, h4]
  · intro sc turn p0 rest blob h1 h2 h3 h4 h5
    simp [onUpstreamMessage, extractInlineAudio, h1, h2, h3, h4, h5]

/-- Concrete upstream server event whose first content part carries inline
audio data. -/
def sampleServerMessage : LiveServerMessage :=
  ⟨some ⟨some ⟨some [⟨some ⟨some "UTJB", some "audio/pcm"⟩⟩]⟩⟩⟩

/-- Witness for C6: the sample event's inline payload reaches registered
OPEN client 4, and the state is unchanged. -/
theorem upstream_onmessage_extraction_witness :
    (onUpstreamMessage (fun _ => WebSocket.OPEN) sampleServerMessage ⟨[4]⟩).1 = ⟨[4]⟩
    ∧ (4, serializeEnvelope "UTJB") ∈
        (onUpstreamMessage (fun _ => WebSocket.OPEN) sampleServerMessage ⟨[4]⟩).2 := by
  have h := upstream_onmessage_extraction (fun _ => WebSocket.OPEN)
    sampleServerMessage ⟨[4]⟩ 4 (by decide) rfl
  exact ⟨h.1, h.2.1 _ _ _ _ _ _ rfl rfl rfl rfl rfl (by decide)⟩

end GeminiLive
